import Mathlib

/-!
Shallow embedding of `src/00_triangle.cpp`, the Vulkan "hello triangle"
bootstrap program.

The external collaborators (the Vulkan driver and the GLFW windowing
library) are modelled by an `Env` record: which validation layers are
installed, which instance extensions the windowing library requires,
the result code the driver returns from instance creation, which
extension functions the driver exports through `vkGetInstanceProcAddr`,
and the result of the resolved messenger-creation function.

The program itself is straight-line code; it is embedded as pure
functions that return the list of externally observable events (driver
and windowing calls) together with the thrown error, if any, exactly
following the control flow of the source (in particular, an exception
thrown during `init_vulkan` propagates out of `run` without executing
`cleanup`, and `main` converts it into one stderr line and exit code 1).
-/

namespace Triangle

/-- Result codes of `VkResult`, from the Vulkan header the source includes. -/
def VK_SUCCESS : Int := 0

/-- `VK_ERROR_OUT_OF_HOST_MEMORY` from the Vulkan header. -/
def VK_ERROR_OUT_OF_HOST_MEMORY : Int := -1

/-- `VK_ERROR_EXTENSION_NOT_PRESENT` from the Vulkan header. -/
def VK_ERROR_EXTENSION_NOT_PRESENT : Int := -7

/-- `vk_result_error_message` (source lines 18-50): the `switch` over
`VkResult` rendering each listed code as its symbolic name, any other
code as `"UNKNOWN_ERROR"`.  The numeric values are the `VkResult` enum
values from the Vulkan header. -/
def vk_result_error_message (errorCode : Int) : String :=
  if errorCode = 1 then "NOT_READY"
  else if errorCode = 2 then "TIMEOUT"
  else if errorCode = 3 then "EVENT_SET"
  else if errorCode = 4 then "EVENT_RESET"
  else if errorCode = 5 then "INCOMPLETE"
  else if errorCode = -1 then "ERROR_OUT_OF_HOST_MEMORY"
  else if errorCode = -2 then "ERROR_OUT_OF_DEVICE_MEMORY"
  else if errorCode = -3 then "ERROR_INITIALIZATION_FAILED"
  else if errorCode = -4 then "ERROR_DEVICE_LOST"
  else if errorCode = -5 then "ERROR_MEMORY_MAP_FAILED"
  else if errorCode = -6 then "ERROR_LAYER_NOT_PRESENT"
  else if errorCode = -7 then "ERROR_EXTENSION_NOT_PRESENT"
  else if errorCode = -8 then "ERROR_FEATURE_NOT_PRESENT"
  else if errorCode = -9 then "ERROR_INCOMPATIBLE_DRIVER"
  else if errorCode = -10 then "ERROR_TOO_MANY_OBJECTS"
  else if errorCode = -11 then "ERROR_FORMAT_NOT_SUPPORTED"
  else if errorCode = -1000000000 then "ERROR_SURFACE_LOST_KHR"
  else if errorCode = -1000000001 then "ERROR_NATIVE_WINDOW_IN_USE_KHR"
  else if errorCode = 1000001003 then "SUBOPTIMAL_KHR"
  else if errorCode = -1000001004 then "ERROR_OUT_OF_DATE_KHR"
  else if errorCode = -1000003001 then "ERROR_INCOMPATIBLE_DISPLAY_KHR"
  else if errorCode = -1000011001 then "ERROR_VALIDATION_FAILED_EXT"
  else if errorCode = -1000012000 then "ERROR_INVALID_SHADER_NV"
  else "UNKNOWN_ERROR"

/-- The code/name pairs handled by the `switch` in `vk_result_error_message`. -/
def vk_code_table : List (Int × String) :=
  [(1, "NOT_READY"), (2, "TIMEOUT"), (3, "EVENT_SET"), (4, "EVENT_RESET"),
   (5, "INCOMPLETE"),
   (-1, "ERROR_OUT_OF_HOST_MEMORY"),
   (-2, "ERROR_OUT_OF_DEVICE_MEMORY"),
   (-3, "ERROR_INITIALIZATION_FAILED"),
   (-4, "ERROR_DEVICE_LOST"),
   (-5, "ERROR_MEMORY_MAP_FAILED"),
   (-6, "ERROR_LAYER_NOT_PRESENT"),
   (-7, "ERROR_EXTENSION_NOT_PRESENT"),
   (-8, "ERROR_FEATURE_NOT_PRESENT"),
   (-9, "ERROR_INCOMPATIBLE_DRIVER"),
   (-10, "ERROR_TOO_MANY_OBJECTS"),
   (-11, "ERROR_FORMAT_NOT_SUPPORTED"),
   (-1000000000, "ERROR_SURFACE_LOST_KHR"),
   (-1000000001, "ERROR_NATIVE_WINDOW_IN_USE_KHR"),
   (1000001003, "SUBOPTIMAL_KHR"),
   (-1000001004, "ERROR_OUT_OF_DATE_KHR"),
   (-1000003001, "ERROR_INCOMPATIBLE_DISPLAY_KHR"),
   (-1000011001, "ERROR_VALIDATION_FAILED_EXT"),
   (-1000012000, "ERROR_INVALID_SHADER_NV")]

/-- The result codes the `switch` handles explicitly. -/
def vk_known_codes : List Int := vk_code_table.map Prod.fst

/-- The requested validation layers (source lines 59-61). -/
def validation_layers : List String := ["VK_LAYER_KHRONOS_validation"]

/-- `VK_EXT_DEBUG_UTILS_EXTENSION_NAME` from the Vulkan header. -/
def VK_EXT_DEBUG_UTILS_EXTENSION_NAME : String := "VK_EXT_debug_utils"

/-- The inner loop of `check_validation_layer_support` (source lines 70-78):
scan `available` for `layer_name`, with early exit on the first match. -/
def layer_is_found (layer_name : String) (available : List String) : Bool :=
  match available with
  | [] => false
  | p :: rest => if layer_name = p then true else layer_is_found layer_name rest

/-- The outer loop of `check_validation_layer_support` (source lines 63-86),
generalized over the requested list (the source instantiates it with the
constant `validation_layers`): every requested name must be found among
the available ones.  This is the spec's `has_all`. -/
def has_all (requested available : List String) : Bool :=
  match requested with
  | [] => true
  | l :: rest => if layer_is_found l available then has_all rest available else false

/-- `check_validation_layer_support` (source lines 63-86) with the
enumerated available layers made explicit. -/
def check_validation_layer_support (available : List String) : Bool :=
  has_all validation_layers available

/-- `get_required_extensions` (source lines 89-100): the windowing
library's required extension list, with the debug-utils extension name
pushed at the back when validation is enabled. -/
def get_required_extensions (validation_enabled : Bool)
    (glfw_extensions : List String) : List String :=
  if validation_enabled then glfw_extensions ++ [VK_EXT_DEBUG_UTILS_EXTENSION_NAME]
  else glfw_extensions

/-- The external world: driver and windowing library behavior for one run. -/
structure Env where
  availableLayers : List String
  glfwExtensions : List String
  createInstanceResult : Int
  exportedFns : List String
  createMessengerResult : Int
  deriving DecidableEq

/-- `load_vk_function` (source lines 113-117): whether
`vkGetInstanceProcAddr` resolves `name` to a non-null pointer. -/
def load_vk_function (env : Env) (name : String) : Bool :=
  env.exportedFns.contains name

/-- Externally observable driver/windowing calls made by the program. -/
inductive Event
  | createWindow
  | driverCreateInstance (layerCount : Nat) (layerNames : List String)
      (extensionCount : Nat) (extensionNames : List String)
  | createMessengerCall
  | destroyMessenger
  | destroyInstance
  | destroyWindow
  deriving DecidableEq

/-- The constructor tag of an event, forgetting the arguments. -/
inductive EKind
  | windowCreate
  | instanceCreate
  | messengerCreate
  | messengerDestroy
  | instanceDestroy
  | windowDestroy
  deriving DecidableEq

/-- Map an event to its kind. -/
def Event.kind : Event → EKind
  | .createWindow => .windowCreate
  | .driverCreateInstance _ _ _ _ => .instanceCreate
  | .createMessengerCall => .messengerCreate
  | .destroyMessenger => .messengerDestroy
  | .destroyInstance => .instanceDestroy
  | .destroyWindow => .windowDestroy

/-- `create_debug_utils_messenger_ext` (source lines 119-132): resolve
`vkCreateDebugUtilsMessengerEXT`; when resolved, invoke it (one call
event, returning the driver's result), otherwise return
`VK_ERROR_EXTENSION_NOT_PRESENT` without calling anything. -/
def create_debug_utils_messenger_ext (env : Env) : List Event × Int :=
  if load_vk_function env "vkCreateDebugUtilsMessengerEXT" then
    ([Event.createMessengerCall], env.createMessengerResult)
  else
    ([], VK_ERROR_EXTENSION_NOT_PRESENT)

/-- `destroy_debug_utils_messenger` (source lines 134-144): resolve
`vkDestroyDebugUtilsMessengerEXT`; when resolved, invoke it (one call
event), otherwise do nothing. -/
def destroy_debug_utils_messenger (env : Env) : List Event :=
  if load_vk_function env "vkDestroyDebugUtilsMessengerEXT" then
    [Event.destroyMessenger]
  else
    []

/-- The fields of `VkInstanceCreateInfo` that the source assigns
(layer count/names, extension count/names); the others are fixed. -/
structure InstanceCreateInfo where
  enabledLayerCount : Nat
  ppEnabledLayerNames : List String
  enabledExtensionCount : Nat
  ppEnabledExtensionNames : List String
  deriving DecidableEq

/-- The assignment sequence of `create_instance` (source lines 189-206),
verbatim: the designated initializer zero-initializes the four fields;
when validation is enabled, `enabledLayerCount` is set to the size of
`get_required_extensions()` and `ppEnabledExtensionNames` to that list
(lines 194-198); then, unconditionally, the extension fields are
overwritten with the windowing library's list (lines 200-204) and
`enabledLayerCount` is set to 0 (line 206). -/
def build_instance_info (validation_enabled : Bool)
    (glfw_extensions : List String) : InstanceCreateInfo :=
  let info : InstanceCreateInfo :=
    { enabledLayerCount := 0, ppEnabledLayerNames := [],
      enabledExtensionCount := 0, ppEnabledExtensionNames := [] }
  let info :=
    if validation_enabled then
      let extensions := get_required_extensions validation_enabled glfw_extensions
      { info with enabledLayerCount := extensions.length,
                  ppEnabledExtensionNames := extensions }
    else info
  let info :=
    { info with enabledExtensionCount := glfw_extensions.length,
                ppEnabledExtensionNames := glfw_extensions }
  { info with enabledLayerCount := 0 }

/-- The `std::runtime_error`s thrown during initialization. -/
inductive AppError
  | unsupportedLayer
  | instanceCreationFailed (code : Int)
  | debugMessengerFailed (code : Int)
  deriving DecidableEq

/-- The `what()` message of each thrown error (source lines 177, 209, 243). -/
def AppError.message : AppError → String
  | .unsupportedLayer => "Validation layers requested but not supported"
  | .instanceCreationFailed code =>
      "Failed to create vulkan instance: " ++ vk_result_error_message code
  | .debugMessengerFailed code =>
      "Failed to setup debug messenger: " ++ vk_result_error_message code

/-- `HelloTriangleApp::create_instance` (source lines 175-221): the layer
support check throws before any driver call; otherwise `vkCreateInstance`
is called once with the assembled `instance_info`, and a non-zero result
throws.  (The post-success extension enumeration prints to stdout only.) -/
def create_instance (validation_enabled : Bool) (env : Env) :
    List Event × Option AppError :=
  if validation_enabled && !check_validation_layer_support env.availableLayers then
    ([], some .unsupportedLayer)
  else
    let info := build_instance_info validation_enabled env.glfwExtensions
    let events := [Event.driverCreateInstance info.enabledLayerCount
      info.ppEnabledLayerNames info.enabledExtensionCount
      info.ppEnabledExtensionNames]
    if env.createInstanceResult ≠ 0 then
      (events, some (.instanceCreationFailed env.createInstanceResult))
    else
      (events, none)

/-- `HelloTriangleApp::setup_debug_messenger` (source lines 223-245):
returns immediately when validation is disabled; otherwise calls the
create wrapper and throws when it returns anything but `VK_SUCCESS`. -/
def setup_debug_messenger (validation_enabled : Bool) (env : Env) :
    List Event × Option AppError :=
  if !validation_enabled then
    ([], none)
  else
    let r := create_debug_utils_messenger_ext env
    if r.2 ≠ VK_SUCCESS then
      (r.1, some (.debugMessengerFailed r.2))
    else
      (r.1, none)

/-- `HelloTriangleApp::cleanup` (source lines 253-262): destroy the
messenger (only when validation is enabled, and the wrapper itself is a
no-op when the destroy function does not resolve), then the instance,
then the window. -/
def cleanup (validation_enabled : Bool) (env : Env) : List Event :=
  (if validation_enabled then destroy_debug_utils_messenger env else [])
    ++ [Event.destroyInstance, Event.destroyWindow]

/-- `HelloTriangleApp::run` (source lines 149-154): window creation, then
`init_vulkan` (= `create_instance`; `setup_debug_messenger`), then the
event loop, then `cleanup`.  A thrown error propagates out immediately,
skipping the remaining steps — in particular `cleanup` runs only when
initialization succeeded.  The event loop makes no modelled calls. -/
def app_run (validation_enabled : Bool) (env : Env) :
    List Event × Option AppError :=
  let w := [Event.createWindow]
  let ci := create_instance validation_enabled env
  if ci.2.isSome then
    (w ++ ci.1, ci.2)
  else
    let sm := setup_debug_messenger validation_enabled env
    if sm.2.isSome then
      (w ++ ci.1 ++ sm.1, sm.2)
    else
      (w ++ ci.1 ++ sm.1 ++ cleanup validation_enabled env, none)

/-- `main` (source lines 272-283): on an uncaught exception, print its
message as one stderr line and return `EXIT_FAILURE` (1); otherwise
return `EXIT_SUCCESS` (0).  Result: (events, stderr lines, exit code). -/
def main_run (validation_enabled : Bool) (env : Env) :
    List Event × List String × Nat :=
  let r := app_run validation_enabled env
  match r.2 with
  | none => (r.1, [], 0)
  | some e => (r.1, [e.message], 1)

/-- `pat` occurs as a contiguous substring of `s`. -/
def contains_substr (s pat : String) : Prop :=
  pat.data <:+: s.data

instance (s pat : String) : Decidable (contains_substr s pat) :=
  List.decidableInfix pat.data s.data

end Triangle
namespace Triangle

lemma layer_is_found_iff (l : String) (A : List String) :
    layer_is_found l A = true ↔ l ∈ A := by
  induction A with
  | nil => simp [layer_is_found]
  | cons p rest ih =>
      by_cases h : l = p
      · simp [layer_is_found, h]
      · simp [layer_is_found, h, ih]

lemma has_all_iff (L A : List String) :
    has_all L A = true ↔ ∀ l ∈ L, l ∈ A := by
  induction L with
  | nil => simp [has_all]
  | cons x rest ih =>
      by_cases h : x ∈ A
      · simp [has_all, (layer_is_found_iff x A).mpr h, ih, h]
      · have h2 : layer_is_found x A = false := by
          cases hf : layer_is_found x A
          · rfl
          · exact absurd ((layer_is_found_iff x A).mp hf) h
        simp [has_all, h2, h]

lemma vk_result_unknown (c : Int) (h : c ∉ vk_known_codes) :
    vk_result_error_message c = "UNKNOWN_ERROR" := by
  simp only [vk_known_codes, vk_code_table, List.map_cons, List.map_nil,
    List.mem_cons, List.not_mem_nil, or_false, not_or] at h
  obtain ⟨h1, h2, h3, h4, h5, h6, h7, h8, h9, h10, h11, h12, h13, h14, h15,
    h16, h17, h18, h19, h20, h21, h22, h23⟩ := h
  unfold vk_result_error_message
  rw [if_neg h1, if_neg h2, if_neg h3, if_neg h4, if_neg h5, if_neg h6,
      if_neg h7, if_neg h8, if_neg h9, if_neg h10, if_neg h11, if_neg h12,
      if_neg h13, if_neg h14, if_neg h15, if_neg h16, if_neg h17, if_neg h18,
      if_neg h19, if_neg h20, if_neg h21, if_neg h22, if_neg h23]

lemma vk_result_message_mem (c : Int) :
    vk_result_error_message c ∈ "UNKNOWN_ERROR" :: vk_code_table.map Prod.snd := by
  by_cases hk : c ∈ vk_known_codes
  · simp only [vk_known_codes, vk_code_table, List.map_cons, List.map_nil,
      List.mem_cons, List.not_mem_nil, or_false] at hk
    rcases hk with rfl|rfl|rfl|rfl|rfl|rfl|rfl|rfl|rfl|rfl|rfl|rfl|rfl|rfl|rfl|rfl|rfl|rfl|rfl|rfl|rfl|rfl|rfl <;> decide
  · rw [vk_result_unknown c hk]
    exact List.mem_cons_self _ _

lemma vk_message_no_newline (c : Int) :
    Char.ofNat 10 ∉ (vk_result_error_message c).data := by
  have hall : ∀ m ∈ "UNKNOWN_ERROR" :: vk_code_table.map Prod.snd,
      Char.ofNat 10 ∉ m.data := by decide
  exact hall _ (vk_result_message_mem c)

lemma message_no_newline (e : AppError) :
    Char.ofNat 10 ∉ e.message.data := by
  cases e with
  | unsupportedLayer => decide
  | instanceCreationFailed c =>
      have h1 : (AppError.instanceCreationFailed c).message
          = "Failed to create vulkan instance: " ++ vk_result_error_message c := rfl
      rw [h1, String.data_append]
      intro hmem
      rcases List.mem_append.mp hmem with h | h
      · exact absurd h (by decide)
      · exact absurd h (vk_message_no_newline c)
  | debugMessengerFailed c =>
      have h1 : (AppError.debugMessengerFailed c).message
          = "Failed to setup debug messenger: " ++ vk_result_error_message c := rfl
      rw [h1, String.data_append]
      intro hmem
      rcases List.mem_append.mp hmem with h | h
      · exact absurd h (by decide)
      · exact absurd h (vk_message_no_newline c)

lemma app_run_success_trace (v : Bool) (env : Env)
    (h : (app_run v env).2 = none) :
    (app_run v env).1 =
      [Event.createWindow,
       Event.driverCreateInstance 0 [] env.glfwExtensions.length env.glfwExtensions]
      ++ (if v then [Event.createMessengerCall] else [])
      ++ (if v && load_vk_function env "vkDestroyDebugUtilsMessengerEXT"
            then [Event.destroyMessenger] else [])
      ++ [Event.destroyInstance, Event.destroyWindow] := by
  cases v with
  | false =>
      by_cases hr : env.createInstanceResult = 0
      · simp [app_run, create_instance, setup_debug_messenger, cleanup,
              build_instance_info, destroy_debug_utils_messenger, hr]
      · exfalso
        simp [app_run, create_instance, hr] at h
  | true =>
      by_cases hc : check_validation_layer_support env.availableLayers = true
      · by_cases hr : env.createInstanceResult = 0
        · by_cases hl : load_vk_function env "vkCreateDebugUtilsMessengerEXT" = true
          · by_cases hm : env.createMessengerResult = 0
            · simp [app_run, create_instance, setup_debug_messenger,
                    create_debug_utils_messenger_ext, cleanup,
                    build_instance_info, destroy_debug_utils_messenger,
                    VK_SUCCESS, hc, hr, hl, hm]
            · exfalso
              simp [app_run, create_instance, setup_debug_messenger,
                    create_debug_utils_messenger_ext, VK_SUCCESS,
                    hc, hr, hl, hm] at h
          · exfalso
            simp [app_run, create_instance, setup_debug_messenger,
                  create_debug_utils_messenger_ext, VK_SUCCESS,
                  VK_ERROR_EXTENSION_NOT_PRESENT, hc, hr, hl] at h
        · exfalso
          simp [app_run, create_instance, hc, hr] at h
      · exfalso
        simp [app_run, create_instance, hc] at h

end Triangle

namespace Triangle

/-- A run environment in which every external call succeeds: the requested
layer is installed, the windowing library requires one surface extension,
the driver accepts instance creation and exports both debug-messenger
functions. -/
def env_ok : Env :=
  { availableLayers := ["VK_LAYER_KHRONOS_validation"],
    glfwExtensions := ["VK_KHR_surface"],
    createInstanceResult := 0,
    exportedFns := ["vkCreateDebugUtilsMessengerEXT", "vkDestroyDebugUtilsMessengerEXT"],
    createMessengerResult := 0 }

/-- `env_ok` but no validation layer is installed. -/
def env_nolayers : Env := { env_ok with availableLayers := [] }

/-- `env_ok` but the driver rejects instance creation with
`VK_ERROR_OUT_OF_HOST_MEMORY`. -/
def env_hostmem : Env := { env_ok with createInstanceResult := -1 }

/-- `env_ok` but the driver exports neither debug-messenger function. -/
def env_noext : Env := { env_ok with exportedFns := [] }

/-- `env_ok` but the driver exports only the messenger-creation function,
not the destruction one. -/
def env_nodestroy : Env :=
  { env_ok with exportedFns := ["vkCreateDebugUtilsMessengerEXT"] }

/-- C1: what the code actually passes to the driver's instance-creation
call.  The conditional assignments for validation (source lines 194-198)
are unconditionally overwritten (lines 200-206), so even with validation
enabled the driver sees zero layers, a null layer-name list, and only the
windowing extensions — the debug-utils extension is absent.  This
contradicts the claim's intended contract (non-empty layer count and the
`list_required_extensions` list when validation is enabled); the
validation-disabled half of the claim does hold. -/
theorem instance_params_drop_layers :
    (∀ (v : Bool) (glfw : List String),
       (build_instance_info v glfw).enabledLayerCount = 0 ∧
       (build_instance_info v glfw).ppEnabledLayerNames = [] ∧
       (build_instance_info v glfw).ppEnabledExtensionNames = glfw) ∧
    VK_EXT_DEBUG_UTILS_EXTENSION_NAME ∉
      (build_instance_info true ["VK_KHR_surface"]).ppEnabledExtensionNames ∧
    Event.driverCreateInstance 0 [] 1 ["VK_KHR_surface"] ∈ (app_run true env_ok).1 := by
  refine ⟨?_, by decide, by decide⟩
  intro v glfw
  cases v <;> simp [build_instance_info]

/-- C2: when validation is enabled and some requested layer is missing
from the available ones, the run fails with the unsupported-layer error
before any driver instance-creation call (the trace holds only the window
creation), and the process exits with code 1. -/
theorem unsupported_layer_blocks_driver_call (env : Env)
    (h : ∃ l ∈ validation_layers, l ∉ env.availableLayers) :
    (app_run true env).2 = some AppError.unsupportedLayer ∧
    (app_run true env).1 = [Event.createWindow] ∧
    (∀ n ls m xs, Event.driverCreateInstance n ls m xs ∉ (app_run true env).1) ∧
    (main_run true env).2.1 = ["Validation layers requested but not supported"] ∧
    (main_run true env).2.2 = 1 := by
  obtain ⟨l, hl, hla⟩ := h
  have hc : check_validation_layer_support env.availableLayers = false := by
    cases hf : check_validation_layer_support env.availableLayers
    · rfl
    · exact absurd ((has_all_iff validation_layers env.availableLayers).mp hf l hl) hla
  have happ : app_run true env = ([Event.createWindow], some AppError.unsupportedLayer) := by
    simp [app_run, create_instance, hc]
  refine ⟨by simp [happ], by simp [happ], ?_, ?_, ?_⟩
  · intro n ls m xs
    simp [happ]
  · simp [main_run, happ, AppError.message]
  · simp [main_run, happ]

/-- Witness for C2 at a concrete environment with no installed layers. -/
theorem unsupported_layer_blocks_driver_call_witness :
    (∃ l ∈ validation_layers, l ∉ env_nolayers.availableLayers) ∧
    (app_run true env_nolayers).2 = some AppError.unsupportedLayer :=
  ⟨by decide, (unsupported_layer_blocks_driver_call env_nolayers (by decide)).1⟩

/-- C3: `has_all` (the loop of `check_validation_layer_support`,
generalized over the requested list) is true exactly when every requested
layer is available; it is false whenever one requested layer is missing,
and true on an empty request. -/
theorem has_all_correct (L A : List String) :
    (has_all L A = true ↔ ∀ l ∈ L, l ∈ A) ∧
    (∀ l ∈ L, l ∉ A → has_all L A = false) ∧
    has_all [] A = true := by
  refine ⟨has_all_iff L A, ?_, rfl⟩
  intro l hl hla
  cases hf : has_all L A
  · rfl
  · exact absurd ((has_all_iff L A).mp hf l hl) hla

/-- Witness for C3 at concrete lists. -/
theorem has_all_correct_witness :
    has_all validation_layers ["VK_LAYER_KHRONOS_validation"] = true :=
  (has_all_correct validation_layers ["VK_LAYER_KHRONOS_validation"]).1.mpr (by decide)

/-- C4 counterexample: on a windowing list that already holds the
debug-utils name, `get_required_extensions true` yields the name twice,
not exactly once, and `get_required_extensions false` does contain it. -/
theorem required_extensions_duplicate_cex :
    (get_required_extensions true ["VK_EXT_debug_utils"]).count
        VK_EXT_DEBUG_UTILS_EXTENSION_NAME = 2 ∧
    VK_EXT_DEBUG_UTILS_EXTENSION_NAME ∈
      get_required_extensions false ["VK_EXT_debug_utils"] := by
  decide

/-- C4 amended: for every windowing-library extension list that does not
itself contain the debug-utils name, `get_required_extensions true`
returns that list with the debug-utils name appended, occurring exactly
once, and `get_required_extensions false` never contains it. -/
theorem required_extensions_debug_ext_once (glfw_extensions : List String)
    (h : VK_EXT_DEBUG_UTILS_EXTENSION_NAME ∉ glfw_extensions) :
    get_required_extensions true glfw_extensions
      = glfw_extensions ++ [VK_EXT_DEBUG_UTILS_EXTENSION_NAME] ∧
    (get_required_extensions true glfw_extensions).count
        VK_EXT_DEBUG_UTILS_EXTENSION_NAME = 1 ∧
    VK_EXT_DEBUG_UTILS_EXTENSION_NAME ∉ get_required_extensions false glfw_extensions := by
  refine ⟨by simp [get_required_extensions], ?_, by simpa [get_required_extensions] using h⟩
  simp [get_required_extensions, List.count_append, List.count_eq_zero.mpr h]

/-- Witness for C4 at a concrete windowing list. -/
theorem required_extensions_debug_ext_once_witness :
    VK_EXT_DEBUG_UTILS_EXTENSION_NAME ∉ ["VK_KHR_surface"] ∧
    get_required_extensions true ["VK_KHR_surface"]
      = ["VK_KHR_surface"] ++ [VK_EXT_DEBUG_UTILS_EXTENSION_NAME] :=
  ⟨by decide, (required_extensions_debug_ext_once ["VK_KHR_surface"] (by decide)).1⟩

/-- C5 counterexample: result code 7 is not a code the switch knows (the
out-of-host-memory code is -1 in the driver's enumeration), so the
failure message for code 7 renders the unknown-error sentinel and does
not contain the symbolic name `ERROR_OUT_OF_HOST_MEMORY`. -/
theorem result_code_seven_unknown_cex :
    vk_result_error_message 7 = "UNKNOWN_ERROR" ∧
    ¬ contains_substr (AppError.message (AppError.instanceCreationFailed 7))
        "ERROR_OUT_OF_HOST_MEMORY" := by
  decide

/-- C5 amended: every code in the switch's table renders as its symbolic
name and every code outside it as the fixed `"UNKNOWN_ERROR"` sentinel;
when driver instance creation returns `VK_ERROR_OUT_OF_HOST_MEMORY`
(code -1, not 7), the failure message contains the symbolic name
`ERROR_OUT_OF_HOST_MEMORY` and the process exits with code 1. -/
theorem result_code_rendering :
    (∀ p ∈ vk_code_table, vk_result_error_message p.1 = p.2) ∧
    (∀ c : Int, c ∉ vk_known_codes → vk_result_error_message c = "UNKNOWN_ERROR") ∧
    (app_run true env_hostmem).2 = some (AppError.instanceCreationFailed (-1)) ∧
    contains_substr (AppError.message (AppError.instanceCreationFailed (-1)))
      "ERROR_OUT_OF_HOST_MEMORY" ∧
    (main_run true env_hostmem).2.1
      = ["Failed to create vulkan instance: ERROR_OUT_OF_HOST_MEMORY"] ∧
    (main_run true env_hostmem).2.2 = 1 := by
  exact ⟨by decide, vk_result_unknown, by decide, by decide, by decide, by decide⟩

/-- Witness for C5's unknown-code clause at the concrete code 7. -/
theorem result_code_rendering_witness :
    (7 : Int) ∉ vk_known_codes ∧ vk_result_error_message 7 = "UNKNOWN_ERROR" :=
  ⟨by decide, result_code_rendering.2.1 7 (by decide)⟩

/-- C6: code behavior at the claim's scenario (validation on, instance
created, driver exports no messenger-creation function): the run fails
with the extension-not-present error and exits 1, but — because the
thrown exception skips `cleanup` — no driver destroy-instance call ever
occurs, contradicting the claim that the instance is still destroyed. -/
theorem missing_create_fn_skips_instance_destroy :
    (app_run true env_noext).2
      = some (AppError.debugMessengerFailed VK_ERROR_EXTENSION_NOT_PRESENT) ∧
    Event.driverCreateInstance 0 [] 1 ["VK_KHR_surface"] ∈ (app_run true env_noext).1 ∧
    Event.destroyInstance ∉ (app_run true env_noext).1 ∧
    (main_run true env_noext).2.1
      = ["Failed to setup debug messenger: ERROR_EXTENSION_NOT_PRESENT"] ∧
    (main_run true env_noext).2.2 = 1 := by
  decide

/-- C7 counterexample: a successful run in which the driver exports the
messenger-creation function but not the destruction one: the messenger is
created, never destroyed, and the instance is destroyed while the
messenger is still registered. -/
theorem destroy_order_cex :
    (app_run true env_nodestroy).2 = none ∧
    Event.createMessengerCall ∈ (app_run true env_nodestroy).1 ∧
    Event.destroyMessenger ∉ (app_run true env_nodestroy).1 ∧
    Event.destroyInstance ∈ (app_run true env_nodestroy).1 := by
  decide

/-- C7 amended: in every successful run, creation order is window,
instance (and messenger when created) and destruction is the exact
reverse — instance destruction strictly before window destruction, and,
when a messenger was created and the driver exports the
messenger-destruction function, messenger destruction strictly before
instance destruction; each destruction happens exactly once. -/
theorem destruction_order_holds (v : Bool) (env : Env)
    (h : (app_run v env).2 = none) :
    List.Sublist [EKind.windowCreate, EKind.instanceCreate,
        EKind.instanceDestroy, EKind.windowDestroy]
      (((app_run v env).1).map Event.kind) ∧
    (Event.createMessengerCall ∈ (app_run v env).1 →
      load_vk_function env "vkDestroyDebugUtilsMessengerEXT" = true →
      List.Sublist [EKind.windowCreate, EKind.instanceCreate,
          EKind.messengerCreate, EKind.messengerDestroy,
          EKind.instanceDestroy, EKind.windowDestroy]
        (((app_run v env).1).map Event.kind)) ∧
    (((app_run v env).1).map Event.kind).count EKind.instanceDestroy = 1 ∧
    (((app_run v env).1).map Event.kind).count EKind.windowDestroy = 1 ∧
    (((app_run v env).1).map Event.kind).count EKind.messengerDestroy ≤ 1 := by
  rw [app_run_success_trace v env h]
  cases v with
  | false =>
      refine ⟨?_, ?_, ?_, ?_, ?_⟩
      · simp [Event.kind]
      · intro hmem
        exfalso
        simp at hmem
      · simp [Event.kind]
      · simp [Event.kind]
      · simp [Event.kind]
  | true =>
      by_cases hd : load_vk_function env "vkDestroyDebugUtilsMessengerEXT" = true
      · refine ⟨?_, ?_, ?_, ?_, ?_⟩ <;> simp [Event.kind, hd]
      · refine ⟨?_, ?_, ?_, ?_, ?_⟩
        · simp [Event.kind, hd]
        · intro _ hcontra
          exact absurd hcontra hd
        · simp [Event.kind, hd]
        · simp [Event.kind, hd]
        · simp [Event.kind, hd]

/-- Witness for C7 at a concrete successful run without validation. -/
theorem destruction_order_holds_witness :
    (app_run false env_ok).2 = none ∧
    List.Sublist [EKind.windowCreate, EKind.instanceCreate,
        EKind.instanceDestroy, EKind.windowDestroy]
      (((app_run false env_ok).1).map Event.kind) :=
  ⟨by decide, (destruction_order_holds false env_ok (by decide)).1⟩

/-- C8: with validation disabled, no messenger operation ever appears in
a run's trace, and the teardown sequence alone performs no
messenger-destroy call. -/
theorem no_messenger_ops_without_validation (env : Env) :
    Event.createMessengerCall ∉ (app_run false env).1 ∧
    Event.destroyMessenger ∉ (app_run false env).1 ∧
    cleanup false env = [Event.destroyInstance, Event.destroyWindow] := by
  have hcl : cleanup false env = [Event.destroyInstance, Event.destroyWindow] := by
    simp [cleanup]
  refine ⟨?_, ?_, hcl⟩ <;>
    (by_cases hr : env.createInstanceResult = 0 <;>
      simp [app_run, create_instance, setup_debug_messenger, cleanup,
            build_instance_info, hr])

/-- Witness for C8 at a concrete environment. -/
theorem no_messenger_ops_without_validation_witness :
    cleanup false env_ok = [Event.destroyInstance, Event.destroyWindow] :=
  (no_messenger_ops_without_validation env_ok).2.2

/-- C9: the process exit contract — a run without an initialization
failure writes nothing to the error stream and exits 0; a failed run
writes exactly the one-line message of its error (no embedded newline)
and exits 1. -/
theorem exit_contract (v : Bool) (env : Env) :
    ((app_run v env).2 = none →
       (main_run v env).2.1 = [] ∧ (main_run v env).2.2 = 0) ∧
    (∀ e, (app_run v env).2 = some e →
       (main_run v env).2.1 = [e.message] ∧
       (main_run v env).2.1.length = 1 ∧
       Char.ofNat 10 ∉ e.message.data ∧
       (main_run v env).2.2 = 1) := by
  constructor
  · intro h
    simp [main_run, h]
  · intro e h
    exact ⟨by simp [main_run, h], by simp [main_run, h], message_no_newline e,
           by simp [main_run, h]⟩

/-- Witness for C9 at a concrete successful run. -/
theorem exit_contract_witness :
    (app_run false env_ok).2 = none ∧
    ((main_run false env_ok).2.1 = [] ∧ (main_run false env_ok).2.2 = 0) :=
  ⟨by decide, (exit_contract false env_ok).1 (by decide)⟩

/-- C10: the dynamic-resolution wrappers never invoke an unresolved
function pointer — when the creation function does not resolve, the
create wrapper performs no call and returns the extension-not-present
code; when the destruction function does not resolve, the destroy
wrapper performs no call at all. -/
theorem unresolved_fn_never_invoked (env : Env) :
    (load_vk_function env "vkCreateDebugUtilsMessengerEXT" = false →
       create_debug_utils_messenger_ext env = ([], VK_ERROR_EXTENSION_NOT_PRESENT)) ∧
    (load_vk_function env "vkDestroyDebugUtilsMessengerEXT" = false →
       destroy_debug_utils_messenger env = []) := by
  constructor
  · intro h
    simp [create_debug_utils_messenger_ext, h]
  · intro h
    simp [destroy_debug_utils_messenger, h]

/-- Witness for C10 at a concrete environment exporting no functions. -/
theorem unresolved_fn_never_invoked_witness :
    load_vk_function env_noext "vkCreateDebugUtilsMessengerEXT" = false ∧
    create_debug_utils_messenger_ext env_noext = ([], VK_ERROR_EXTENSION_NOT_PRESENT) :=
  ⟨by decide, (unresolved_fn_never_invoked env_noext).1 (by decide)⟩

end Triangle
